import Mathlib

/-
Verification of the process-orchestration core of the queequeg benchmark
harness (src/.plano.py) against its specification.

The script is shallowly embedded: each external effect (renaming the
transfer log, starting a workload process, starting/stopping the pidstat
monitor, sleeping, running the caller-supplied measurement action,
killing a process, printing) is recorded as an `Event` in a trace, and
every fallible external operation is decided by an oracle (`World` for a
trial, `Env` for the environment checks).  File-system state is threaded
explicitly as a map from path to optional file content.
-/

namespace Queequeg

/-- One observable effect of the script, in program order. -/
inductive Event where
  | rotate : Event
  | startProc : String → Event
  | startMonitor : Event
  | sleepFor : Nat → Event
  | runInner : Event
  | stopMonitor : Event
  | killProc : Nat → Event
  | build : Event
  | printTransfers : Nat → Event
  | printOutput : Event
deriving DecidableEq, Repr

/-- Errors the script can raise. -/
inductive Err where
  | spawnError : Err
  | monitorError : Err
  | innerError : Err
  | killError : Err
  | buildError : Err
  | precondition : String → Err
deriving DecidableEq, Repr

/-- Oracle for one trial: whether each external operation in
`run_outer` succeeds. -/
structure World where
  startReceiverOk : Bool
  startSenderOk : Bool
  startMonitorOk : Bool
  innerOk : Bool
  kill0Ok : Bool
  kill1Ok : Bool

/-- File contents are a list of lines, each a list of characters. -/
abbrev FileData := List (List Char)

/-- The file system: path to optional content. -/
abbrev FS := String → Option FileData

/-- `move(src, dst)`: afterwards `dst` holds `src`'s old content and
`src` is gone. -/
def fsMove (src dst : String) (fs : FS) : FS :=
  fun p => if p = dst then fs src else if p = src then none else fs p

/-- Starting the receiver with `stdout="transfers.csv"` opens the file
for writing, truncating it to empty. -/
def fsStartReceiver (fs : FS) : FS :=
  fun p => if p = "transfers.csv" then some [] else fs p

def receiverCmd : String := "./queequeg receive"
def senderCmd : String := "./queequeg send"

/-- The body of the `try:` block in `run_outer`: `with
start("pidstat ...")`, then `sleep(warmup)`, then `inner(pids)`.  The
`with` block stops the monitor on exit whether or not `inner` raised;
if starting the monitor itself fails nothing inside runs. -/
def tryBody (w : World) (warmup : Nat) : List Event × Except Err Unit :=
  if w.startMonitorOk = false then
    ([], Except.error Err.monitorError)
  else if w.innerOk = false then
    ([Event.startMonitor, Event.sleepFor warmup, Event.runInner, Event.stopMonitor],
     Except.error Err.innerError)
  else
    ([Event.startMonitor, Event.sleepFor warmup, Event.runInner, Event.stopMonitor],
     Except.ok ())

/-- The `finally:` block: `for proc in procs: kill(proc)` over the two
workload processes.  A raising `kill` aborts the loop at that point. -/
def runKills (w : World) : List Event × Option Err :=
  if w.kill0Ok = false then
    ([Event.killProc 0], some Err.killError)
  else if w.kill1Ok = false then
    ([Event.killProc 0, Event.killProc 1], some Err.killError)
  else
    ([Event.killProc 0, Event.killProc 1], none)

/-- `run_outer(inner, warmup)`: rotate an existing transfers.csv, start
the receiver (stdout redirected to transfers.csv) and then the sender,
then `try`: under the pidstat monitor sleep the warmup and run the
measurement action; `finally`: kill the workload processes.  A `finally`
that raises replaces the in-flight outcome, as in Python. -/
def run_outer (fs : FS) (w : World) (warmup : Nat) :
    List Event × FS × Except Err Unit :=
  let rotated :=
    if (fs "transfers.csv").isSome then
      ([Event.rotate], fsMove "transfers.csv" "transfers.csv.old" fs)
    else
      (([] : List Event), fs)
  if w.startReceiverOk = false then
    (rotated.1, rotated.2, Except.error Err.spawnError)
  else
    let fs1 := fsStartReceiver rotated.2
    let ev1 := rotated.1 ++ [Event.startProc receiverCmd]
    if w.startSenderOk = false then
      (ev1, fs1, Except.error Err.spawnError)
    else
      let ev2 := ev1 ++ [Event.startProc senderCmd]
      let body := tryBody w warmup
      let kills := runKills w
      let result :=
        match kills.2 with
        | some e => Except.error e
        | none => body.2
      (ev2 ++ body.1 ++ kills.1, fs1, result)

/-! ### Report collection: `print_transfers` -/

/-- The decimal digits of `n`, most significant first (as produced by
`wc` printing the line count). -/
def natDigits (n : Nat) : List Nat :=
  if _h : n < 10 then [n]
  else natDigits (n / 10) ++ [n % 10]
termination_by n
decreasing_by exact Nat.div_lt_self (by omega) (by omega)

/-- The character for a single decimal digit. -/
def digitChar (d : Nat) : Char :=
  match d with
  | 0 => '0' | 1 => '1' | 2 => '2' | 3 => '3' | 4 => '4'
  | 5 => '5' | 6 => '6' | 7 => '7' | 8 => '8' | _ => '9'

/-- Decimal rendering of `n` as characters. -/
def natChars (n : Nat) : List Char := (natDigits n).map digitChar

/-- Whitespace for Python `str.split()` purposes. -/
def isWs (c : Char) : Bool := c == ' ' || c == '\n' || c == '\t'

/-- `wc -l transfers.csv` prints the line count, a space, the file
name, and a newline. -/
def wcOutput (log : FileData) : List Char :=
  natChars log.length ++ (' ' :: "transfers.csv\n".toList)

/-- Python `s.split()[0]`: the first whitespace-delimited token. -/
def firstToken (s : List Char) : List Char :=
  (s.dropWhile isWs).takeWhile (fun c => !(isWs c))

/-- Python `int(s)` on a string of decimal digits. -/
def pyInt (s : List Char) : Nat :=
  s.foldl (fun a c => a * 10 + (c.toNat - 48)) 0

/-- The rate printed by `print_transfers(duration)`:
`int(call("wc -l transfers.csv").split()[0]) // duration`. -/
def print_transfers (log : FileData) (duration : Nat) : Nat :=
  pyInt (firstToken (wcOutput log)) / duration

/-! ### Environment checks and the CLI commands -/

/-- Oracle for the environment: which required programs exist, the
content of `/proc/sys/kernel/perf_event_paranoid`, whether
d3-flame-graph is installed, and whether the gcc build succeeds. -/
structure Env where
  gccFound : Bool
  perfFound : Bool
  pidstatFound : Bool
  paranoid : String
  d3Found : Bool
  buildOk : Bool

/-- The `check` command: three program checks then the perf-events
capability check, each aborting with its remediation message. -/
def check (e : Env) : Except String Unit :=
  if e.gccFound = false then
    Except.error "I can\x27t find gcc.  Run \x27dnf install gcc\x27."
  else if e.perfFound = false then
    Except.error "I can\x27t find the perf tools.  Run \x27dnf install perf\x27."
  else if e.pidstatFound = false then
    Except.error "I can\x27t find pidstat.  Run \x27dnf install sysstat\x27."
  else if e.paranoid ≠ "-1\n" then
    Except.error "Perf events are not enabled.  Run \x27echo -1 > /proc/sys/kernel/perf_event_paranoid\x27 as root."
  else
    Except.ok ()

/-- The common body of `stat`, `flamegraph` and `record`: `build()`
(which runs `check()` then gcc), then `try: run_outer(inner, warmup)
finally: print_transfers(duration + warmup)`, then `print(read(output))`
only if no exception is propagating.  `log` is the content of
transfers.csv when `print_transfers` reads it. -/
def outerCommand (e : Env) (fs : FS) (w : World) (log : FileData)
    (duration warmup : Nat) : List Event × Except Err Unit :=
  match check e with
  | Except.error m => ([], Except.error (Err.precondition m))
  | Except.ok _ =>
    if e.buildOk = false then
      ([Event.build], Except.error Err.buildError)
    else
      let r := run_outer fs w warmup
      let evs := Event.build :: r.1 ++
        [Event.printTransfers (print_transfers log (duration + warmup))]
      match r.2.2 with
      | Except.error er => (evs, Except.error er)
      | Except.ok _ => (evs ++ [Event.printOutput], Except.ok ())

/-- The `stat` command. -/
def stat (e : Env) (fs : FS) (w : World) (log : FileData)
    (duration warmup : Nat) : List Event × Except Err Unit :=
  outerCommand e fs w log duration warmup

/-- The `flamegraph` command: additionally requires d3-flame-graph
before building. -/
def flamegraph (e : Env) (fs : FS) (w : World) (log : FileData)
    (duration warmup : Nat) : List Event × Except Err Unit :=
  if e.d3Found = false then
    ([], Except.error (Err.precondition
      "I can\x27t find d3-flame-graph.  Run \x27dnf install js-d3-flame-graph\x27."))
  else
    outerCommand e fs w log duration warmup

/-- The `record` command. -/
def record (e : Env) (fs : FS) (w : World) (log : FileData)
    (duration warmup : Nat) : List Event × Except Err Unit :=
  outerCommand e fs w log duration warmup

/-- Does a message spell out a remediation command (`Run '...'`)? -/
def startsWithList : List Char → List Char → Bool
  | [], _ => true
  | _ :: _, [] => false
  | a :: as, b :: bs => a == b && startsWithList as bs

def hasRunHint : List Char → Bool
  | [] => false
  | c :: cs => startsWithList "Run \x27".toList (c :: cs) || hasRunHint cs

/-! ### Basic lemmas about the decimal rendering and parsing -/

theorem natDigits_all_lt (n : Nat) : ∀ d ∈ natDigits n, d < 10 := by
  induction n using Nat.strong_induction_on with
  | _ n ih =>
    rw [natDigits]
    by_cases h : n < 10 <;> simp [h]
    intro d hd
    rcases hd with hd | rfl
    · exact ih (n / 10) (Nat.div_lt_self (by omega) (by omega)) d hd
    · omega

theorem natDigits_ne_nil (n : Nat) : natDigits n ≠ [] := by
  rw [natDigits]
  split <;> simp

/-- Recombining the decimal digits of `n` gives back `n`. -/
def evalDigits (ds : List Nat) : Nat :=
  ds.foldl (fun a d => a * 10 + d) 0

theorem evalDigits_natDigits (n : Nat) : evalDigits (natDigits n) = n := by
  induction n using Nat.strong_induction_on with
  | _ n ih =>
    rw [natDigits]
    by_cases h : n < 10 <;> simp [h, evalDigits]
    have hrec := ih (n / 10) (Nat.div_lt_self (by omega) (by omega))
    simp only [evalDigits] at hrec
    rw [hrec]
    omega

theorem digitChar_toNat (d : Nat) (h : d < 10) : (digitChar d).toNat = 48 + d := by
  interval_cases d <;> rfl

theorem digitChar_not_ws (d : Nat) (h : d < 10) : isWs (digitChar d) = false := by
  interval_cases d <;> rfl

theorem pyInt_foldl (ds : List Nat) :
    ∀ a, (∀ d ∈ ds, d < 10) →
      (ds.map digitChar).foldl (fun a c => a * 10 + (c.toNat - 48)) a =
        ds.foldl (fun a d => a * 10 + d) a := by
  induction ds with
  | nil => intro a _; rfl
  | cons d ds ih =>
    intro a h
    simp only [List.map_cons, List.foldl_cons]
    rw [digitChar_toNat d (h d (by simp))]
    have h48 : a * 10 + (48 + d - 48) = a * 10 + d := by omega
    rw [h48]
    exact ih _ (fun x hx => h x (by simp [hx]))

theorem takeWhile_append_all {α : Type} (p : α → Bool) (l₁ l₂ : List α)
    (h : ∀ a ∈ l₁, p a = true) :
    (l₁ ++ l₂).takeWhile p = l₁ ++ l₂.takeWhile p := by
  induction l₁ with
  | nil => simp
  | cons a l ih =>
    simp only [List.cons_append, List.takeWhile_cons_of_pos (h a (by simp))]
    rw [ih (fun x hx => h x (by simp [hx]))]

/-- `split()[0]` on the `wc -l` output recovers exactly the decimal
rendering of the line count. -/
theorem firstToken_wcOutput (log : FileData) :
    firstToken (wcOutput log) = natChars log.length := by
  obtain ⟨d, ds, hds⟩ := List.exists_cons_of_ne_nil (natDigits_ne_nil log.length)
  have hall : ∀ d ∈ natDigits log.length, d < 10 := natDigits_all_lt _
  have hd10 : d < 10 := hall d (by rw [hds]; simp)
  have hdsall : ∀ x ∈ ds, x < 10 := fun x hx => hall x (by rw [hds]; simp [hx])
  unfold firstToken wcOutput natChars
  rw [hds]
  simp only [List.map_cons, List.cons_append]
  rw [List.dropWhile_cons_of_neg (by simp [digitChar_not_ws d hd10])]
  rw [show (digitChar d :: (List.map digitChar ds ++ (' ' :: "transfers.csv\n".toList))) =
      (digitChar d :: List.map digitChar ds) ++ (' ' :: "transfers.csv\n".toList) by simp]
  rw [takeWhile_append_all _ _ _ ?_]
  · rw [List.takeWhile_cons_of_neg (by simp [isWs])]
    simp
  · intro a ha
    simp only [List.mem_cons, List.mem_map] at ha
    rcases ha with rfl | ⟨x, hx, rfl⟩
    · simp [digitChar_not_ws d hd10]
    · simp [digitChar_not_ws x (hdsall x hx)]

/-- `print_transfers` computes line count over elapsed time with
integer floor division. -/
theorem print_transfers_eq (log : FileData) (T : Nat) :
    print_transfers log T = log.length / T := by
  unfold print_transfers
  rw [firstToken_wcOutput]
  unfold pyInt natChars
  rw [pyInt_foldl _ _ (natDigits_all_lt _)]
  have := evalDigits_natDigits log.length
  unfold evalDigits at this
  rw [this]

instance {ε α : Type} [DecidableEq ε] [DecidableEq α] :
    DecidableEq (Except ε α) := fun a b =>
  match a, b with
  | Except.ok x, Except.ok y =>
    match decEq x y with
    | isTrue h => isTrue (by rw [h])
    | isFalse h => isFalse (fun hh => h (by injection hh))
  | Except.ok _, Except.error _ => isFalse (fun h => Except.noConfusion h)
  | Except.error _, Except.ok _ => isFalse (fun h => Except.noConfusion h)
  | Except.error x, Except.error y =>
    match decEq x y with
    | isTrue h => isTrue (by rw [h])
    | isFalse h => isFalse (fun hh => h (by injection hh))

/-! ### Trace ordering -/

/-- `a` occurs strictly before the first occurrence of `b` in `tr`
(and `b` does occur). -/
def occursBefore (a b : Event) (tr : List Event) : Prop :=
  b ∈ tr ∧ a ∈ tr.takeWhile (fun e => !(e == b))

instance (a b : Event) (tr : List Event) : Decidable (occursBefore a b tr) :=
  inferInstanceAs (Decidable (b ∈ tr ∧ a ∈ tr.takeWhile (fun e => !(e == b))))

/-- An empty file system. -/
def fsEmpty : FS := fun _ => none

/-- A world in which every external operation succeeds. -/
def worldAllOk : World := ⟨true, true, true, true, true, true⟩

/-- An environment in which every check passes and the build works. -/
def envAllOk : Env := ⟨true, true, true, "-1\n", true, true⟩

/-- A log with fifty (empty) lines. -/
def log50 : FileData := List.replicate 50 []

/-- C1: for every `run_outer` invocation whose two workload starts and
whose terminations succeed, exactly one teardown occurs: each of the two
started workload processes is sent exactly one terminate signal before
control returns, whether the measurement action succeeds
(`w.innerOk = true`) or raises (`w.innerOk = false`), and likewise
whether the monitor start succeeds or raises. -/
theorem claim_C1 (fs : FS) (w : World) (warmup : Nat)
    (hr : w.startReceiverOk = true) (hs : w.startSenderOk = true)
    (hk0 : w.kill0Ok = true) (hk1 : w.kill1Ok = true) :
    (run_outer fs w warmup).1.count (Event.killProc 0) = 1 ∧
      (run_outer fs w warmup).1.count (Event.killProc 1) = 1 := by
  obtain ⟨r, s, m, i, k0, k1⟩ := w
  simp only at hr hs hk0 hk1
  subst hr hs hk0 hk1
  cases hfs : (fs "transfers.csv").isSome <;> cases m <;> cases i <;>
    simp [run_outer, tryBody, runKills, hfs, receiverCmd, senderCmd, List.count_cons]

/-- Witness for C1 at a concrete input: a failing measurement action,
everything else succeeding. -/
theorem claim_C1_witness :
    let w : World := ⟨true, true, true, false, true, true⟩
    w.startReceiverOk = true ∧ w.startSenderOk = true ∧
      w.kill0Ok = true ∧ w.kill1Ok = true ∧
      ((run_outer fsEmpty w 5).1.count (Event.killProc 0) = 1 ∧
        (run_outer fsEmpty w 5).1.count (Event.killProc 1) = 1) :=
  ⟨rfl, rfl, rfl, rfl, claim_C1 fsEmpty ⟨true, true, true, false, true, true⟩ 5 rfl rfl rfl rfl⟩

/-- C3: whenever the sender is issued at all, the receiver was issued
strictly before it. -/
theorem claim_C3 (fs : FS) (w : World) (warmup : Nat)
    (h : Event.startProc senderCmd ∈ (run_outer fs w warmup).1) :
    occursBefore (Event.startProc receiverCmd) (Event.startProc senderCmd)
      (run_outer fs w warmup).1 := by
  obtain ⟨r, s, m, i, k0, k1⟩ := w
  cases hfs : (fs "transfers.csv").isSome <;> cases r <;> cases s <;> cases m <;>
      cases i <;> cases k0 <;> cases k1 <;>
    simp_all [run_outer, tryBody, runKills, occursBefore, receiverCmd, senderCmd]

/-- Witness for C3 at a concrete input. -/
theorem claim_C3_witness :
    Event.startProc senderCmd ∈ (run_outer fsEmpty worldAllOk 5).1 ∧
      occursBefore (Event.startProc receiverCmd) (Event.startProc senderCmd)
        (run_outer fsEmpty worldAllOk 5).1 :=
  ⟨by decide, claim_C3 fsEmpty worldAllOk 5 (by decide)⟩

/-- C5 fails on the code: when the sender spawn fails after the
receiver started, the receiver is never terminated — the error
propagates with no kill issued (the starts happen before the
`try/finally`). -/
theorem claim_C5_counterexample :
    Event.startProc receiverCmd ∈
        (run_outer fsEmpty ⟨true, false, true, true, true, true⟩ 5).1 ∧
      Event.killProc 0 ∉ (run_outer fsEmpty ⟨true, false, true, true, true, true⟩ 5).1 ∧
      (run_outer fsEmpty ⟨true, false, true, true, true, true⟩ 5).2.2 =
        Except.error Err.spawnError := by
  decide

/-- C5 amended: if starting the sender fails after the receiver was
started, the spawn error propagates out of `run_outer` without any
terminate signal being sent — the already-started receiver is leaked,
because both starts happen before the `try/finally` protects them. -/
theorem claim_C5 (fs : FS) (w : World) (warmup : Nat)
    (hr : w.startReceiverOk = true) (hs : w.startSenderOk = false) :
    Event.startProc receiverCmd ∈ (run_outer fs w warmup).1 ∧
      (∀ k, Event.killProc k ∉ (run_outer fs w warmup).1) ∧
      (run_outer fs w warmup).2.2 = Except.error Err.spawnError := by
  obtain ⟨r, s, m, i, k0, k1⟩ := w
  simp only at hr hs
  subst hr hs
  cases hfs : (fs "transfers.csv").isSome <;>
    simp [run_outer, tryBody, runKills, hfs, receiverCmd, senderCmd]

/-- Witness for the amended C5 at a concrete input. -/
theorem claim_C5_witness :
    let w : World := ⟨true, false, true, true, true, true⟩
    w.startReceiverOk = true ∧ w.startSenderOk = false ∧
      (Event.startProc receiverCmd ∈ (run_outer fsEmpty w 7).1 ∧
        (∀ k, Event.killProc k ∉ (run_outer fsEmpty w 7).1) ∧
        (run_outer fsEmpty w 7).2.2 = Except.error Err.spawnError) :=
  ⟨rfl, rfl, claim_C5 fsEmpty ⟨true, false, true, true, true, true⟩ 7 rfl rfl⟩

/-- C4 fails on the code: with everything succeeding and warmup 5, the
pidstat monitor is started before the warmup sleep, not after it — the
claim that monitor attachment happens only after the warmup interval
has elapsed is false at this input. -/
theorem claim_C4_counterexample :
    ¬ occursBefore (Event.sleepFor 5) Event.startMonitor
        (run_outer fsEmpty worldAllOk 5).1 := by
  decide

/-- C4 amended: the monitor is attached only after the full process
group is start-issued, but before the warmup sleep rather than after
it; only the measurement action (the perf invocation) is deferred until
the warmup interval has elapsed. -/
theorem claim_C4 (fs : FS) (w : World) (warmup : Nat)
    (hr : w.startReceiverOk = true) (hs : w.startSenderOk = true)
    (hm : w.startMonitorOk = true) :
    occursBefore (Event.startProc senderCmd) Event.startMonitor
        (run_outer fs w warmup).1 ∧
      occursBefore Event.startMonitor (Event.sleepFor warmup)
        (run_outer fs w warmup).1 ∧
      occursBefore (Event.sleepFor warmup) Event.runInner
        (run_outer fs w warmup).1 := by
  obtain ⟨r, s, m, i, k0, k1⟩ := w
  simp only at hr hs hm
  subst hr hs hm
  cases hfs : (fs "transfers.csv").isSome <;> cases i <;> cases k0 <;> cases k1 <;>
    simp [run_outer, tryBody, runKills, occursBefore, hfs, receiverCmd, senderCmd]

/-- Witness for the amended C4 at a concrete input. -/
theorem claim_C4_witness :
    worldAllOk.startReceiverOk = true ∧ worldAllOk.startSenderOk = true ∧
      worldAllOk.startMonitorOk = true ∧
      (occursBefore (Event.startProc senderCmd) Event.startMonitor
          (run_outer fsEmpty worldAllOk 9).1 ∧
        occursBefore Event.startMonitor (Event.sleepFor 9)
          (run_outer fsEmpty worldAllOk 9).1 ∧
        occursBefore (Event.sleepFor 9) Event.runInner
          (run_outer fsEmpty worldAllOk 9).1) :=
  ⟨rfl, rfl, rfl, claim_C4 fsEmpty worldAllOk 9 rfl rfl rfl⟩

/-- C6 fails on the code: with a successful measurement but a failing
first kill, the second process is never sent a terminate call and the
kill error replaces the trial's successful outcome. -/
theorem claim_C6_counterexample :
    Event.killProc 1 ∉ (run_outer fsEmpty ⟨true, true, true, true, false, true⟩ 5).1 ∧
      (run_outer fsEmpty ⟨true, true, true, true, false, true⟩ 5).2.2 =
        Except.error Err.killError := by
  decide

/-- C6 amended: a failing terminate call aborts the teardown loop — the
remaining process receives no terminate call — and the teardown error
propagates out of the `finally`, replacing the trial's primary
outcome. -/
theorem claim_C6 (fs : FS) (w : World) (warmup : Nat)
    (hr : w.startReceiverOk = true) (hs : w.startSenderOk = true)
    (hm : w.startMonitorOk = true) (hi : w.innerOk = true)
    (hk0 : w.kill0Ok = false) :
    (run_outer fs w warmup).1.count (Event.killProc 0) = 1 ∧
      Event.killProc 1 ∉ (run_outer fs w warmup).1 ∧
      (run_outer fs w warmup).2.2 = Except.error Err.killError := by
  obtain ⟨r, s, m, i, k0, k1⟩ := w
  simp only at hr hs hm hi hk0
  subst hr hs hm hi hk0
  cases hfs : (fs "transfers.csv").isSome <;>
    simp [run_outer, tryBody, runKills, hfs, receiverCmd, senderCmd, List.count_cons]

/-- Witness for the amended C6 at a concrete input. -/
theorem claim_C6_witness :
    (⟨true, true, true, true, false, true⟩ : World).startReceiverOk = true ∧
      (⟨true, true, true, true, false, true⟩ : World).kill0Ok = false ∧
      ((run_outer fsEmpty ⟨true, true, true, true, false, true⟩ 3).1.count
          (Event.killProc 0) = 1 ∧
        Event.killProc 1 ∉ (run_outer fsEmpty ⟨true, true, true, true, false, true⟩ 3).1 ∧
        (run_outer fsEmpty ⟨true, true, true, true, false, true⟩ 3).2.2 =
          Except.error Err.killError) :=
  ⟨rfl, rfl, claim_C6 fsEmpty ⟨true, true, true, true, false, true⟩ 3 rfl rfl rfl rfl rfl⟩

/-- C7: starting a trial while a transfer log exists renames the old
log to transfers.csv.old strictly before the receiver is started, the
backup holds the old content, and the new log begins empty. -/
theorem claim_C7 (fs : FS) (w : World) (warmup : Nat) (L : FileData)
    (hL : fs "transfers.csv" = some L) (hr : w.startReceiverOk = true) :
    occursBefore Event.rotate (Event.startProc receiverCmd)
        (run_outer fs w warmup).1 ∧
      (run_outer fs w warmup).2.1 "transfers.csv.old" = some L ∧
      (run_outer fs w warmup).2.1 "transfers.csv" = some [] := by
  obtain ⟨r, s, m, i, k0, k1⟩ := w
  simp only at hr
  subst hr
  have hfs : (fs "transfers.csv").isSome = true := by rw [hL]; rfl
  cases s <;> cases m <;> cases i <;> cases k0 <;> cases k1 <;>
    simp [run_outer, tryBody, runKills, occursBefore, hfs, hL, fsMove,
      fsStartReceiver, receiverCmd, senderCmd]

/-- Witness for C7 at a concrete input: a one-line pre-existing log. -/
theorem claim_C7_witness :
    (fun p => if p = "transfers.csv" then some [['x']] else none : FS)
        "transfers.csv" = some [['x']] ∧
      worldAllOk.startReceiverOk = true ∧
      (occursBefore Event.rotate (Event.startProc receiverCmd)
          (run_outer (fun p => if p = "transfers.csv" then some [['x']] else none)
            worldAllOk 5).1 ∧
        (run_outer (fun p => if p = "transfers.csv" then some [['x']] else none)
            worldAllOk 5).2.1 "transfers.csv.old" = some [['x']] ∧
        (run_outer (fun p => if p = "transfers.csv" then some [['x']] else none)
            worldAllOk 5).2.1 "transfers.csv" = some []) :=
  ⟨by decide, rfl,
    claim_C7 (fun p => if p = "transfers.csv" then some [['x']] else none)
      worldAllOk 5 [['x']] (by decide) rfl⟩

/-- C9: in every trial whose workload and monitor all started, the
pidstat monitor is stopped (the `with` block exits) before any
workload process is sent a terminate signal. -/
theorem claim_C9 (fs : FS) (w : World) (warmup : Nat)
    (hr : w.startReceiverOk = true) (hs : w.startSenderOk = true)
    (hm : w.startMonitorOk = true) :
    ∀ k, Event.killProc k ∈ (run_outer fs w warmup).1 →
      occursBefore Event.stopMonitor (Event.killProc k)
        (run_outer fs w warmup).1 := by
  obtain ⟨r, s, m, i, k0, k1⟩ := w
  simp only at hr hs hm
  subst hr hs hm
  intro k hk
  cases hfs : (fs "transfers.csv").isSome <;> cases i <;> cases k0 <;> cases k1 <;>
    · simp [run_outer, tryBody, runKills, hfs, receiverCmd, senderCmd] at hk
      rcases hk with rfl | rfl <;>
        simp [run_outer, tryBody, runKills, occursBefore, hfs, receiverCmd, senderCmd]

/-- Witness for C9 at a concrete input. -/
theorem claim_C9_witness :
    worldAllOk.startReceiverOk = true ∧ worldAllOk.startSenderOk = true ∧
      worldAllOk.startMonitorOk = true ∧
      Event.killProc 0 ∈ (run_outer fsEmpty worldAllOk 5).1 ∧
      occursBefore Event.stopMonitor (Event.killProc 0)
        (run_outer fsEmpty worldAllOk 5).1 :=
  ⟨rfl, rfl, rfl, by decide,
    claim_C9 fsEmpty worldAllOk 5 rfl rfl rfl 0 (by decide)⟩

/-- `run_outer` itself never prints the captured monitor output. -/
theorem run_outer_no_printOutput (fs : FS) (w : World) (warmup : Nat) :
    Event.printOutput ∉ (run_outer fs w warmup).1 := by
  obtain ⟨r, s, m, i, k0, k1⟩ := w
  cases hfs : (fs "transfers.csv").isSome <;> cases r <;> cases s <;> cases m <;>
      cases i <;> cases k0 <;> cases k1 <;>
    simp [run_outer, tryBody, runKills, hfs]

/-- C2: the rate reported by `stat` is the transfer log's line count
floor-divided by total elapsed time `duration + warmup`; in particular
`print_transfers` computes `N // T`. -/
theorem claim_C2 (e : Env) (fs : FS) (w : World) (log : FileData)
    (duration warmup : Nat) (_hT : 0 < duration + warmup)
    (hc : check e = Except.ok ()) (hb : e.buildOk = true) :
    print_transfers log (duration + warmup) = log.length / (duration + warmup) ∧
      Event.printTransfers (log.length / (duration + warmup)) ∈
        (stat e fs w log duration warmup).1 := by
  refine ⟨print_transfers_eq log (duration + warmup), ?_⟩
  unfold stat outerCommand
  rw [hc, hb]
  simp only [print_transfers_eq]
  cases hr : (run_outer fs w warmup).2.2 with
  | error er => simp
  | ok u => simp

/-- Witness for C2: fifty log lines over 5 + 5 elapsed seconds give a
reported rate of 5. -/
theorem claim_C2_witness :
    0 < 5 + 5 ∧ check envAllOk = Except.ok () ∧ envAllOk.buildOk = true ∧
      (print_transfers log50 (5 + 5) = log50.length / (5 + 5) ∧
        Event.printTransfers (log50.length / (5 + 5)) ∈
          (stat envAllOk fsEmpty worldAllOk log50 5 5).1) ∧
      log50.length / (5 + 5) = 5 :=
  ⟨by decide, by decide, rfl,
    claim_C2 envAllOk fsEmpty worldAllOk log50 5 5 (by decide) (by decide) rfl,
    by decide⟩

/-- C8: whenever `check` fails, `stat` aborts with that message wrapped
as a precondition error, spawns nothing (its trace is empty), and the
message spells out the remediation command after `Run`. -/
theorem claim_C8 (e : Env) (fs : FS) (w : World) (log : FileData)
    (duration warmup : Nat) (m : String)
    (hm : check e = Except.error m) :
    stat e fs w log duration warmup = ([], Except.error (Err.precondition m)) ∧
      hasRunHint m.toList = true := by
  constructor
  · unfold stat outerCommand
    rw [hm]
  · unfold check at hm
    by_cases h1 : e.gccFound = false
    · rw [if_pos h1] at hm
      injection hm with hm
      subst hm
      decide
    · rw [if_neg h1] at hm
      by_cases h2 : e.perfFound = false
      · rw [if_pos h2] at hm
        injection hm with hm
        subst hm
        decide
      · rw [if_neg h2] at hm
        by_cases h3 : e.pidstatFound = false
        · rw [if_pos h3] at hm
          injection hm with hm
          subst hm
          decide
        · rw [if_neg h3] at hm
          by_cases h4 : e.paranoid ≠ "-1\n"
          · rw [if_pos h4] at hm
            injection hm with hm
            subst hm
            decide
          · rw [if_neg h4] at hm
            exact absurd hm (fun h => Except.noConfusion h)

/-- Witness for C8 at a concrete input: gcc missing. -/
theorem claim_C8_witness :
    check ⟨false, true, true, "-1\n", true, true⟩ =
        Except.error "I can\x27t find gcc.  Run \x27dnf install gcc\x27." ∧
      (stat ⟨false, true, true, "-1\n", true, true⟩ fsEmpty worldAllOk log50 5 5 =
          ([], Except.error (Err.precondition
            "I can\x27t find gcc.  Run \x27dnf install gcc\x27.")) ∧
        hasRunHint ("I can\x27t find gcc.  Run \x27dnf install gcc\x27.").toList = true) :=
  ⟨by decide,
    claim_C8 ⟨false, true, true, "-1\n", true, true⟩ fsEmpty worldAllOk log50 5 5
      "I can\x27t find gcc.  Run \x27dnf install gcc\x27." (by decide)⟩

/-- C10: for each of `stat`, `flamegraph` and `record` (once the
environment checks and build pass), the throughput summary is printed
whether or not the trial raised an error, while the captured monitor
output is printed exactly when the trial completed without error. -/
theorem claim_C10 (e : Env) (fs : FS) (w : World) (log : FileData)
    (duration warmup : Nat)
    (hc : check e = Except.ok ()) (hb : e.buildOk = true)
    (hd3 : e.d3Found = true) :
    ((∃ n, Event.printTransfers n ∈ (stat e fs w log duration warmup).1) ∧
      (Event.printOutput ∈ (stat e fs w log duration warmup).1 ↔
        (run_outer fs w warmup).2.2 = Except.ok ())) ∧
    ((∃ n, Event.printTransfers n ∈ (flamegraph e fs w log duration warmup).1) ∧
      (Event.printOutput ∈ (flamegraph e fs w log duration warmup).1 ↔
        (run_outer fs w warmup).2.2 = Except.ok ())) ∧
    ((∃ n, Event.printTransfers n ∈ (record e fs w log duration warmup).1) ∧
      (Event.printOutput ∈ (record e fs w log duration warmup).1 ↔
        (run_outer fs w warmup).2.2 = Except.ok ())) := by
  have hno := run_outer_no_printOutput fs w warmup
  have hcore :
      (∃ n, Event.printTransfers n ∈ (outerCommand e fs w log duration warmup).1) ∧
        (Event.printOutput ∈ (outerCommand e fs w log duration warmup).1 ↔
          (run_outer fs w warmup).2.2 = Except.ok ()) := by
    unfold outerCommand
    rw [hc, hb]
    cases hr : (run_outer fs w warmup).2.2 with
    | error er => simp [hr, hno]
    | ok u => simp [hr]
  refine ⟨hcore, ?_, hcore⟩
  unfold flamegraph
  rw [hd3]
  exact hcore

/-- Witness for C10 at a concrete input. -/
theorem claim_C10_witness :
    check envAllOk = Except.ok () ∧ envAllOk.buildOk = true ∧
      envAllOk.d3Found = true ∧
      ((∃ n, Event.printTransfers n ∈ (stat envAllOk fsEmpty worldAllOk log50 5 5).1) ∧
        (Event.printOutput ∈ (stat envAllOk fsEmpty worldAllOk log50 5 5).1 ↔
          (run_outer fsEmpty worldAllOk 5).2.2 = Except.ok ())) :=
  ⟨by decide, rfl, rfl,
    (claim_C10 envAllOk fsEmpty worldAllOk log50 5 5 (by decide) rfl rfl).1⟩

end Queequeg
